import Mathlib

/-!
Echo HTTP server (`webServer/src/echo_server.c`).

A shallow embedding of `handle_http_request` and of the per-connection part of
`main`, with the C library calls they make (`strcmp`, `strlen`, `snprintf`,
`memset`, `recv`, `send`).

Memory conventions.  A `char` is kept as its unsigned value.  A pointer is
modelled by the list of bytes readable from it; a NUL-terminated read
(`strlen`, `strcmp`, the `%s` conversion) stops at the first NUL, and the end
of the list stands for the NUL that ends whatever memory follows.  A `send`
is recorded as the pair of the socket and the bytes handed to it; the
messages printed on stdout and stderr, and `free`, leave no trace in the
model.
-/

namespace EchoServer

/-- A C `char`, as its unsigned value. -/
abbrev Byte := Nat

/-- Capacity of the receive buffer and of the response buffer
(`#define BUF_SIZE 4096`). -/
def BUF_SIZE : Nat := 4096

/-- The characters of a C string literal, without the terminating NUL. -/
def lit (s : String) : List Byte := s.toList.map Char.toNat

/-- The C string stored at a pointer: the bytes before the first NUL. -/
def c_str (mem : List Byte) : List Byte := mem.takeWhile (fun b => b != 0)

/-- The C function `strlen(mem)`. -/
def strlen (mem : List Byte) : Nat := (c_str mem).length

/-- The C function `strcmp(a, b)`: the difference of the first pair of bytes that differ,
`0` when both strings end together. -/
def strcmp : List Byte → List Byte → Int
  | [], [] => 0
  | [], b :: _ => 0 - (b : Int)
  | a :: _, [] => (a : Int)
  | a :: as, b :: bs =>
    if a ≠ b then (a : Int) - (b : Int) else if a = 0 then 0 else strcmp as bs

/-- Digits of the `%zu` conversion, most significant first; `fuel` bounds the
number of digits produced. -/
def fmt_zu_aux : Nat → Nat → List Byte → List Byte
  | 0, _, acc => acc
  | fuel + 1, n, acc =>
    if n < 10 then (48 + n) :: acc
    else fmt_zu_aux fuel (n / 10) ((48 + n % 10) :: acc)

/-- The `%zu` conversion of `snprintf`: `n` in decimal. -/
def fmt_zu (n : Nat) : List Byte := fmt_zu_aux (n + 1) n []

/-- The call `snprintf(dst, size, ...)`, where `out` is the complete formatted text:
at most `size - 1` bytes of it are stored, followed by a NUL; the bytes of
`dst` after that NUL are left as they were. -/
def snprintf (dst : List Byte) (size : Nat) (out : List Byte) : List Byte :=
  if size = 0 then dst
  else (out.take (size - 1)) ++ 0 :: dst.drop ((out.take (size - 1)).length + 1)

/-- The C function `memset(dst, c, n)`. -/
def memset (dst : List Byte) (c : Byte) (n : Nat) : List Byte :=
  List.replicate (min n dst.length) c ++ dst.drop n

/-- The call `recv(sock, dst, len, 0)` on a connection whose peer delivers `incoming`
(`none`: the read fails or times out).  Returns `readret` and the buffer. -/
def recv (dst : List Byte) (len : Nat) : Option (List Byte) → Int × List Byte
  | none => (-1, dst)
  | some data => (((data.take len).length : Int), data.take len ++ dst.drop (data.take len).length)

/-- One call of `send(sock, ptr, len, 0)`: the socket and the `len` bytes at
`ptr`. -/
def send (sock : Int) (ptr : List Byte) (len : Nat) : Int × List Byte :=
  (sock, ptr.take len)

/-- Modelled from the spec: the `Request` declaration of `include/parse.h`,
which is not part of the sources at hand.  The handler reads `http_method`
(a C string) and frees `headers`; the other fields follow the data model of
the specification. -/
structure Request where
  http_method : List Byte
  uri : List Byte
  version : List Byte
  headers : List (List Byte × List Byte)
  raw_length : Nat
deriving DecidableEq, Repr

/-- The process-wide buffers `char buf[BUF_SIZE]` and
`char response[BUF_SIZE]`. -/
structure Globals where
  buf : List Byte
  response : List Byte
deriving DecidableEq, Repr

/-- The signature of `parse(buffer, size, socketFd)`; `none` is the NULL
pointer. -/
abbrev Parser := List Byte → Nat → Int → Option Request

/-- The formatted text of the `snprintf` call in the GET/POST branch. -/
def echo_text (request_len : Nat) (request_buf : List Byte) : List Byte :=
  lit "HTTP/1.1 200 OK\r\n"
    ++ lit "Content-Type: text/plain\r\n"
    ++ (lit "Content-Length: " ++ fmt_zu request_len ++ lit "\r\n")
    ++ lit "\r\n"
    ++ c_str request_buf

/-- The status line, the two headers and the blank line of the GET/POST
response: the part of the format string before `%s`. -/
def echo_head (request_len : Nat) : List Byte :=
  lit "HTTP/1.1 200 OK\r\n"
    ++ lit "Content-Type: text/plain\r\n"
    ++ (lit "Content-Length: " ++ fmt_zu request_len ++ lit "\r\n")
    ++ lit "\r\n"

/-- The function `handle_http_request(client_sock, request_buf, request_len)`: the globals
after the call and the list of `send` calls made. -/
def handle_http_request (parse : Parser) (g : Globals) (client_sock : Int)
    (request_buf : List Byte) (request_len : Nat) : Globals × List (Int × List Byte) :=
  match parse request_buf request_len client_sock with
  | none =>
    let error_response := lit "HTTP/1.1 400 Bad Request\r\n\r\n"
    (g, [send client_sock error_response (strlen error_response)])
  | some request =>
    if strcmp request.http_method (lit "GET") = 0 ∨
        strcmp request.http_method (lit "POST") = 0 then
      let response := snprintf g.response BUF_SIZE (echo_text request_len request_buf)
      ({ g with response := response }, [send client_sock response (strlen response)])
    else if strcmp request.http_method (lit "HEAD") = 0 then
      let head_response :=
        lit "HTTP/1.1 200 OK\r\n"
          ++ lit "Content-Type: text/plain\r\n"
          ++ lit "Content-Length: 0\r\n"
          ++ lit "\r\n"
      (g, [send client_sock head_response (strlen head_response)])
    else
      let error_response := lit "HTTP/1.1 501 Not Implemented\r\n\r\n"
      (g, [send client_sock error_response (strlen error_response)])

/-- One turn of the `while (1)` loop of `main` after a successful `accept`:
`memset` of `buf`, one `recv`, and `handle_http_request` when `readret > 0`;
on `readret == 0` and on `readret < 0` only a message is printed. -/
def main_loop_body (parse : Parser) (g : Globals) (client_sock : Int)
    (incoming : Option (List Byte)) : Globals × List (Int × List Byte) :=
  let cleared := memset g.buf 0 BUF_SIZE
  let r := recv cleared BUF_SIZE incoming
  let g1 : Globals := { g with buf := r.2 }
  if r.1 > 0 then handle_http_request parse g1 client_sock g1.buf r.1.toNat
  else (g1, [])

/-- The globals at program start: both arrays are zero-initialised. -/
def initial_globals : Globals :=
  { buf := List.replicate BUF_SIZE 0, response := List.replicate BUF_SIZE 0 }

/-- The bytes answered to a parse outcome, as a function of the outcome, the
received length and the request buffer alone (shown below to be what
`handle_http_request` sends). -/
def response_for (outcome : Option Request) (request_len : Nat) (request_buf : List Byte) :
    List Byte :=
  match outcome with
  | none => lit "HTTP/1.1 400 Bad Request\r\n\r\n"
  | some request =>
    if c_str request.http_method = lit "GET" ∨ c_str request.http_method = lit "POST" then
      (echo_text request_len request_buf).take (BUF_SIZE - 1)
    else if c_str request.http_method = lit "HEAD" then
      lit "HTTP/1.1 200 OK\r\nContent-Type: text/plain\r\nContent-Length: 0\r\n\r\n"
    else lit "HTTP/1.1 501 Not Implemented\r\n\r\n"

/-! ## The request parser, from the specification

`parse` lives in `parse.c`, which is not among the sources.  The theorems
below hold for every parser; `parse_spec` follows section 4.1 of the
specification and is used to evaluate the server on concrete requests. -/

/-- Modelled from the spec: the `ParseFailure` sum type of the data model
(`parse.c` is not among the sources). -/
inductive ParseFailure where
  | MalformedRequestLine
  | UnterminatedHeaders
  | EmptyInput
  | OversizedInput
deriving DecidableEq, Repr

/-- Modelled from the spec: (`parse.c` is missing) cut a byte sequence at its
first CRLF, giving the line and what follows the CRLF. -/
def split_crlf : List Byte → Option (List Byte × List Byte)
  | [] => none
  | [_] => none
  | a :: b :: rest =>
    if a = 13 ∧ b = 10 then some ([], rest)
    else (split_crlf (b :: rest)).map (fun p => (a :: p.1, p.2))

/-- Modelled from the spec: (`parse.c` is missing) split on every single
occurrence of `sep`. -/
def split_on (sep : Byte) : List Byte → List (List Byte)
  | [] => [[]]
  | b :: rest =>
    if b = sep then [] :: split_on sep rest
    else
      match split_on sep rest with
      | [] => [[b]]
      | t :: ts => (b :: t) :: ts

/-- Modelled from the spec: (`parse.c` is missing) split a header line on its
first `:`. -/
def split_colon : List Byte → Option (List Byte × List Byte)
  | [] => none
  | b :: rest =>
    if b = 58 then some ([], rest)
    else (split_colon rest).map (fun p => (b :: p.1, p.2))

/-- Modelled from the spec: (`parse.c` is missing) drop leading spaces and
tabs of a header value. -/
def trim_leading : List Byte → List Byte
  | [] => []
  | b :: rest => if b = 32 ∨ b = 9 then trim_leading rest else b :: rest

/-- Modelled from the spec: (`parse.c` is missing) steps 6 and 7 of the
parsing algorithm: header lines up to the first empty line.  Returns the
headers and the bytes left after the empty line.  Every line takes at least
two bytes, so a fuel of the input length is never exhausted. -/
def parse_headers : Nat → List Byte →
    Except ParseFailure (List (List Byte × List Byte) × List Byte)
  | 0, _ => .error .UnterminatedHeaders
  | fuel + 1, s =>
    match split_crlf s with
    | none => .error .UnterminatedHeaders
    | some ([], rest) => .ok ([], rest)
    | some (b :: line, rest) =>
      match split_colon (b :: line) with
      | none => .error .MalformedRequestLine
      | some ([], _) => .error .MalformedRequestLine
      | some (c :: name, value) =>
        match parse_headers fuel rest with
        | .error e => .error e
        | .ok (hs, left) => .ok ((c :: name, trim_leading value) :: hs, left)

/-- Modelled from the spec: (`parse.c` is missing) the parsing algorithm of
section 4.1, steps 1 to 8, on the first `length` bytes of `buffer`. -/
def parse_request (buffer : List Byte) (length : Nat) : Except ParseFailure Request :=
  if length = 0 then .error .EmptyInput
  else if length > BUF_SIZE then .error .OversizedInput
  else
    match split_crlf (buffer.take length) with
    | none => .error .MalformedRequestLine
    | some (line, rest) =>
      match split_on 32 line with
      | [m, u, v] =>
        if m = [] ∨ u = [] ∨ v = [] then .error .MalformedRequestLine
        else if ¬ (lit "HTTP/").isPrefixOf v then .error .MalformedRequestLine
        else
          match parse_headers (rest.length + 1) rest with
          | .error e => .error e
          | .ok (hs, left) =>
            .ok { http_method := m, uri := u, version := v, headers := hs,
                  raw_length := (buffer.take length).length - left.length }
      | _ => .error .MalformedRequestLine

/-- Modelled from the spec: (`parse.c` is missing) the C entry point
`parse(buffer, size, socketFd)`: a `Request`, or NULL on any failure. -/
def parse_spec : Parser := fun buffer size _ =>
  match parse_request buffer size with
  | .ok r => some r
  | .error _ => none

/-! ## Reading a response -/

/-- The body of an HTTP message: the bytes after the first blank line
(CRLF CRLF); `none` when there is no blank line. -/
def http_body : List Byte → Option (List Byte)
  | [] => none
  | a :: rest =>
    if (lit "\r\n\r\n").isPrefixOf (a :: rest) then some ((a :: rest).drop 4)
    else http_body rest

/-- Whether a byte is an ASCII decimal digit. -/
def is_digit (b : Byte) : Bool := 48 ≤ b && b ≤ 57

/-- The number written by a run of decimal digits. -/
def dec_value (ds : List Byte) : Nat := ds.foldl (fun v d => 10 * v + (d - 48)) 0

/-- The value of the `Content-Length` header of a message: the header lines
are those between the first line and the first empty line. -/
def content_length_aux : Nat → List Byte → Option Nat
  | 0, _ => none
  | fuel + 1, s =>
    match split_crlf s with
    | none => none
    | some ([], _) => none
    | some (b :: line, rest) =>
      if (lit "Content-Length: ").isPrefixOf (b :: line) then
        let v := (b :: line).drop (lit "Content-Length: ").length
        if v ≠ [] ∧ v.all is_digit then some (dec_value v) else none
      else content_length_aux fuel rest

/-- The `Content-Length` announced by a response. -/
def content_length (resp : List Byte) : Option Nat :=
  match split_crlf resp with
  | none => none
  | some (_, rest) => content_length_aux (rest.length + 1) rest

/-! ## C strings -/

theorem c_str_nil : c_str [] = [] := rfl

theorem c_str_cons (b : Byte) (mem : List Byte) :
    c_str (b :: mem) = if b = 0 then [] else b :: c_str mem := by
  by_cases h : b = 0
  · simp [c_str, List.takeWhile_cons, h]
  · simp [c_str, List.takeWhile_cons, h]

theorem c_str_no_nul (mem : List Byte) : ∀ b ∈ c_str mem, b ≠ 0 := by
  induction mem with
  | nil => simp [c_str]
  | cons a mem ih =>
    intro b hb
    rw [c_str_cons] at hb
    by_cases h : a = 0
    · simp [h] at hb
    · simp only [h, if_false, List.mem_cons] at hb
      rcases hb with rfl | hb
      · exact h
      · exact ih b hb

theorem c_str_append_nul (l rest : List Byte) (h : ∀ b ∈ l, b ≠ 0) :
    c_str (l ++ 0 :: rest) = l := by
  induction l with
  | nil => simp [c_str_cons]
  | cons a l ih =>
    have ha : a ≠ 0 := h a (List.mem_cons_self a l)
    have hl : ∀ b ∈ l, b ≠ 0 := fun b hb => h b (List.mem_cons_of_mem a hb)
    rw [List.cons_append, c_str_cons, if_neg ha, ih hl]

theorem c_str_of_no_nul (l : List Byte) (h : ∀ b ∈ l, b ≠ 0) : c_str l = l := by
  induction l with
  | nil => rfl
  | cons a l ih =>
    have ha : a ≠ 0 := h a (List.mem_cons_self a l)
    have hl : ∀ b ∈ l, b ≠ 0 := fun b hb => h b (List.mem_cons_of_mem a hb)
    rw [c_str_cons, if_neg ha, ih hl]

theorem take_strlen (mem : List Byte) : mem.take (strlen mem) = c_str mem := by
  induction mem with
  | nil => rfl
  | cons a mem ih =>
    unfold strlen at ih ⊢
    rw [c_str_cons]
    by_cases h : a = 0
    · simp [h]
    · simp [h, ih]

theorem c_str_length_le (mem : List Byte) : (c_str mem).length ≤ mem.length := by
  induction mem with
  | nil => simp [c_str]
  | cons a mem ih =>
    rw [c_str_cons]
    by_cases h : a = 0
    · simp [h]
    · simp [h, ih]

/-- The function `strcmp` returns 0 exactly when the two C strings are equal. -/
theorem strcmp_eq_zero_iff (a b : List Byte) : strcmp a b = 0 ↔ c_str a = c_str b := by
  induction a generalizing b with
  | nil =>
    cases b with
    | nil => simp [strcmp]
    | cons y ys =>
      rw [strcmp, c_str_cons, c_str_nil]
      by_cases hy : y = 0
      · simp [hy]
      · simp only [hy, if_false]
        constructor
        · intro h; exact absurd (by simpa using h) hy
        · intro h; simp at h
  | cons x xs ih =>
    cases b with
    | nil =>
      rw [strcmp, c_str_cons, c_str_nil]
      by_cases hx : x = 0
      · simp [hx]
      · simp only [hx, if_false]
        constructor
        · intro h; exact absurd (by simpa using h) hx
        · intro h; simp at h
    | cons y ys =>
      rw [strcmp, c_str_cons, c_str_cons]
      by_cases hxy : x = y
      · subst hxy
        by_cases hx : x = 0
        · simp [hx]
        · simp [hx, ih ys]
      · rw [if_pos hxy]
        constructor
        · intro h; exact absurd (by exact_mod_cast sub_eq_zero.mp h) hxy
        · intro h
          exfalso
          by_cases hx : x = 0
          · by_cases hy : y = 0
            · exact hxy (hx.trans hy.symm)
            · simp [hx, hy] at h
          · by_cases hy : y = 0
            · simp [hx, hy] at h
            · simp [hx, hy] at h
              exact hxy h.1

/-! ## The `%zu` conversion -/

theorem dec_value_snoc (ds : List Byte) (d : Byte) :
    dec_value (ds ++ [d]) = 10 * dec_value ds + (d - 48) := by
  simp [dec_value, List.foldl_append]

/-- With enough fuel, `fmt_zu_aux` puts in front of the accumulator a
non-empty run of decimal digits whose value is `n`, of at most `k + 1` digits
when `n < 10 ^ (k + 1)`. -/
theorem fmt_zu_aux_spec (fuel : Nat) : ∀ (n : Nat) (acc : List Byte), n < fuel →
    ∃ ds : List Byte, fmt_zu_aux fuel n acc = ds ++ acc ∧ ds ≠ [] ∧
      (∀ d ∈ ds, is_digit d = true) ∧ dec_value ds = n ∧
      (∀ k, n < 10 ^ (k + 1) → ds.length ≤ k + 1) := by
  induction fuel with
  | zero => intro n acc h; omega
  | succ fuel ih =>
    intro n acc hn
    rw [fmt_zu_aux]
    by_cases h10 : n < 10
    · rw [if_pos h10]
      refine ⟨[48 + n], rfl, by simp, ?_, ?_, ?_⟩
      · intro d hd
        simp only [List.mem_singleton] at hd
        subst hd
        simp only [is_digit, Bool.and_eq_true, decide_eq_true_eq, Byte]
        omega
      · simp [dec_value]
      · intro k _
        simp
    · rw [if_neg h10]
      obtain ⟨ds, hds, _, hdig, hval, hlen⟩ :=
        ih (n / 10) ((48 + n % 10) :: acc) (by omega)
      refine ⟨ds ++ [48 + n % 10], by rw [hds]; simp, by simp, ?_, ?_, ?_⟩
      · intro d hd
        rcases List.mem_append.mp hd with hd | hd
        · exact hdig d hd
        · simp only [List.mem_singleton] at hd
          subst hd
          simp only [is_digit, Bool.and_eq_true, decide_eq_true_eq, Byte]
          omega
      · rw [dec_value_snoc, hval]
        omega
      · intro k hk
        cases k with
        | zero => omega
        | succ k =>
          have hk2 : n / 10 < 10 ^ (k + 1) := by
            rw [Nat.div_lt_iff_lt_mul (by norm_num)]
            rw [pow_succ] at hk
            exact hk
          have := hlen k hk2
          simp only [List.length_append, List.length_singleton]
          omega

theorem fmt_zu_spec (n : Nat) :
    fmt_zu n ≠ [] ∧ (∀ d ∈ fmt_zu n, is_digit d = true) ∧ dec_value (fmt_zu n) = n ∧
      (∀ k, n < 10 ^ (k + 1) → (fmt_zu n).length ≤ k + 1) := by
  obtain ⟨ds, hds, hne, hdig, hval, hlen⟩ := fmt_zu_aux_spec (n + 1) n [] (by omega)
  have h : fmt_zu n = ds := by rw [fmt_zu, hds, List.append_nil]
  rw [h]
  exact ⟨hne, hdig, hval, hlen⟩

theorem is_digit_ne_zero (d : Byte) (h : is_digit d = true) : d ≠ 0 := by
  simp only [is_digit, Bool.and_eq_true, decide_eq_true_eq] at h
  unfold Byte at *
  omega

/-! ## What the handler sends -/

theorem lit_status_no_nul : ∀ b ∈ lit "HTTP/1.1 200 OK\r\n", b ≠ 0 := by decide

theorem lit_type_no_nul : ∀ b ∈ lit "Content-Type: text/plain\r\n", b ≠ 0 := by decide

theorem lit_length_no_nul : ∀ b ∈ lit "Content-Length: ", b ≠ 0 := by decide

theorem lit_crlf_no_nul : ∀ b ∈ lit "\r\n", b ≠ 0 := by decide

/-- The text formatted in the GET/POST branch holds no NUL. -/
theorem echo_text_no_nul (n : Nat) (buf : List Byte) : ∀ b ∈ echo_text n buf, b ≠ 0 := by
  intro b hb
  simp only [echo_text, List.mem_append] at hb
  rcases hb with (((hb | hb) | ((hb | hb) | hb)) | hb) | hb
  · exact lit_status_no_nul b hb
  · exact lit_type_no_nul b hb
  · exact lit_length_no_nul b hb
  · exact is_digit_ne_zero b ((fmt_zu_spec n).2.1 b hb)
  · exact lit_crlf_no_nul b hb
  · exact lit_crlf_no_nul b hb
  · exact c_str_no_nul buf b hb

/-- After `snprintf` of a NUL-free text, the C string in the destination is
the text cut to `size - 1` bytes. -/
theorem c_str_snprintf (dst : List Byte) (size : Nat) (out : List Byte)
    (hsize : size ≠ 0) (h : ∀ b ∈ out, b ≠ 0) :
    c_str (snprintf dst size out) = out.take (size - 1) := by
  rw [snprintf, if_neg hsize]
  exact c_str_append_nul _ _ (fun b hb => h b (List.mem_of_mem_take hb))

/-- The one `send` of the parse-failure branch. -/
theorem sent_of_parse_none (parse : Parser) (g : Globals) (client_sock : Int)
    (request_buf : List Byte) (request_len : Nat)
    (h : parse request_buf request_len client_sock = none) :
    (handle_http_request parse g client_sock request_buf request_len).2
      = [(client_sock, lit "HTTP/1.1 400 Bad Request\r\n\r\n")] := by
  have hc : c_str (lit "HTTP/1.1 400 Bad Request\r\n\r\n")
      = lit "HTTP/1.1 400 Bad Request\r\n\r\n" := by decide
  simp only [handle_http_request, h, send, take_strlen, hc]

/-- The one `send` of the GET/POST branch: the formatted text cut to
`BUF_SIZE - 1` bytes. -/
theorem sent_of_echo (parse : Parser) (g : Globals) (client_sock : Int)
    (request_buf : List Byte) (request_len : Nat) (request : Request)
    (h : parse request_buf request_len client_sock = some request)
    (hm : c_str request.http_method = lit "GET" ∨ c_str request.http_method = lit "POST") :
    (handle_http_request parse g client_sock request_buf request_len).2
      = [(client_sock, (echo_text request_len request_buf).take (BUF_SIZE - 1))] := by
  have hG : c_str (lit "GET") = lit "GET" := by decide
  have hP : c_str (lit "POST") = lit "POST" := by decide
  have hcond : strcmp request.http_method (lit "GET") = 0 ∨
      strcmp request.http_method (lit "POST") = 0 := by
    rw [strcmp_eq_zero_iff, strcmp_eq_zero_iff, hG, hP]
    exact hm
  simp only [handle_http_request, h, if_pos hcond, send, take_strlen]
  rw [c_str_snprintf _ _ _ (by decide) (echo_text_no_nul request_len request_buf)]

/-- The one `send` of the HEAD branch. -/
theorem sent_of_head (parse : Parser) (g : Globals) (client_sock : Int)
    (request_buf : List Byte) (request_len : Nat) (request : Request)
    (h : parse request_buf request_len client_sock = some request)
    (hm : c_str request.http_method = lit "HEAD") :
    (handle_http_request parse g client_sock request_buf request_len).2
      = [(client_sock,
          lit "HTTP/1.1 200 OK\r\nContent-Type: text/plain\r\nContent-Length: 0\r\n\r\n")] := by
  have hG : c_str (lit "GET") = lit "GET" := by decide
  have hP : c_str (lit "POST") = lit "POST" := by decide
  have hH : c_str (lit "HEAD") = lit "HEAD" := by decide
  have hcond : ¬ (strcmp request.http_method (lit "GET") = 0 ∨
      strcmp request.http_method (lit "POST") = 0) := by
    rw [strcmp_eq_zero_iff, strcmp_eq_zero_iff, hG, hP, hm]
    decide
  have hhead : strcmp request.http_method (lit "HEAD") = 0 := by
    rw [strcmp_eq_zero_iff, hH, hm]
  have hc : c_str (lit "HTTP/1.1 200 OK\r\n" ++ lit "Content-Type: text/plain\r\n"
        ++ lit "Content-Length: 0\r\n" ++ lit "\r\n")
      = lit "HTTP/1.1 200 OK\r\nContent-Type: text/plain\r\nContent-Length: 0\r\n\r\n" := by
    decide
  simp only [handle_http_request, h, if_neg hcond, if_pos hhead, send, take_strlen, hc]

/-- The one `send` of the branch for every other method. -/
theorem sent_of_other (parse : Parser) (g : Globals) (client_sock : Int)
    (request_buf : List Byte) (request_len : Nat) (request : Request)
    (h : parse request_buf request_len client_sock = some request)
    (hG : c_str request.http_method ≠ lit "GET")
    (hP : c_str request.http_method ≠ lit "POST")
    (hH : c_str request.http_method ≠ lit "HEAD") :
    (handle_http_request parse g client_sock request_buf request_len).2
      = [(client_sock, lit "HTTP/1.1 501 Not Implemented\r\n\r\n")] := by
  have hG1 : c_str (lit "GET") = lit "GET" := by decide
  have hP1 : c_str (lit "POST") = lit "POST" := by decide
  have hH1 : c_str (lit "HEAD") = lit "HEAD" := by decide
  have hcond : ¬ (strcmp request.http_method (lit "GET") = 0 ∨
      strcmp request.http_method (lit "POST") = 0) := by
    rw [strcmp_eq_zero_iff, strcmp_eq_zero_iff, hG1, hP1]
    exact fun hx => hx.elim hG hP
  have hhead : ¬ strcmp request.http_method (lit "HEAD") = 0 := by
    rw [strcmp_eq_zero_iff, hH1]
    exact hH
  have hc : c_str (lit "HTTP/1.1 501 Not Implemented\r\n\r\n")
      = lit "HTTP/1.1 501 Not Implemented\r\n\r\n" := by decide
  simp only [handle_http_request, h, if_neg hcond, if_neg hhead, send, take_strlen, hc]

/-- What `handle_http_request` sends is one `send` of `response_for`. -/
theorem sent_eq_response_for (parse : Parser) (g : Globals) (client_sock : Int)
    (request_buf : List Byte) (request_len : Nat) :
    (handle_http_request parse g client_sock request_buf request_len).2
      = [(client_sock,
          response_for (parse request_buf request_len client_sock) request_len request_buf)] := by
  cases h : parse request_buf request_len client_sock with
  | none => rw [sent_of_parse_none parse g client_sock request_buf request_len h]; rfl
  | some request =>
    by_cases hm : c_str request.http_method = lit "GET" ∨ c_str request.http_method = lit "POST"
    · rw [sent_of_echo parse g client_sock request_buf request_len request h hm]
      simp only [response_for, if_pos hm]
    · by_cases hh : c_str request.http_method = lit "HEAD"
      · rw [sent_of_head parse g client_sock request_buf request_len request h hh]
        simp only [response_for, if_neg hm, if_pos hh]
      · rw [sent_of_other parse g client_sock request_buf request_len request h
          (fun x => hm (Or.inl x)) (fun x => hm (Or.inr x)) hh]
        simp only [response_for, if_neg hm, if_neg hh]

theorem response_for_length_le (outcome : Option Request) (request_len : Nat)
    (request_buf : List Byte) :
    (response_for outcome request_len request_buf).length ≤ BUF_SIZE - 1 := by
  cases outcome with
  | none => simp only [response_for]; decide
  | some request =>
    simp only [response_for]
    split
    · exact (List.length_take_le _ _)
    · split
      · decide
      · decide

/-! ## The shape of the echo response -/

theorem echo_text_eq (n : Nat) (buf : List Byte) : echo_text n buf = echo_head n ++ c_str buf :=
  rfl

theorem echo_head_length (n : Nat) : (echo_head n).length = 63 + (fmt_zu n).length := by
  have h1 : (lit "HTTP/1.1 200 OK\r\n").length = 17 := by decide
  have h2 : (lit "Content-Type: text/plain\r\n").length = 26 := by decide
  have h3 : (lit "Content-Length: ").length = 16 := by decide
  have h4 : (lit "\r\n").length = 2 := by decide
  simp only [echo_head, List.length_append, h1, h2, h3, h4]
  omega

/-- A `size_t` takes at most 20 decimal digits, so the head of the echo
response is at most 83 bytes long. -/
theorem echo_head_length_le (n : Nat) (h : n < 2 ^ 64) : (echo_head n).length ≤ 83 := by
  have hd := (fmt_zu_spec n).2.2.2 19 (by omega)
  rw [echo_head_length]
  omega

/-- When the head fits, the echo branch sends the whole head followed by the
C string of the request buffer cut to the room left. -/
theorem sent_of_echo_split (parse : Parser) (g : Globals) (client_sock : Int)
    (request_buf : List Byte) (request_len : Nat) (request : Request)
    (h : parse request_buf request_len client_sock = some request)
    (hm : c_str request.http_method = lit "GET" ∨ c_str request.http_method = lit "POST")
    (hn : (echo_head request_len).length ≤ BUF_SIZE - 1) :
    (handle_http_request parse g client_sock request_buf request_len).2
      = [(client_sock, echo_head request_len
          ++ (c_str request_buf).take (BUF_SIZE - 1 - (echo_head request_len).length))] := by
  rw [sent_of_echo parse g client_sock request_buf request_len request h hm, echo_text_eq,
    List.take_append_eq_append_take, List.take_of_length_le hn]

theorem http_body_cons_ne (a : Byte) (rest : List Byte) (h : a ≠ 13) :
    http_body (a :: rest) = http_body rest := by
  have hl : lit "\r\n\r\n" = [13, 10, 13, 10] := by decide
  have h2 : ¬ (13 : Nat) = a := fun x => h x.symm
  rw [http_body, hl]
  simp [List.isPrefixOf, h2]

theorem http_body_skip (p rest : List Byte) (h : ∀ b ∈ p, b ≠ 13) :
    http_body (p ++ rest) = http_body rest := by
  induction p with
  | nil => rfl
  | cons a p ih =>
    rw [List.cons_append, http_body_cons_ne _ _ (h a (List.mem_cons_self a p))]
    exact ih (fun b hb => h b (List.mem_cons_of_mem a hb))

theorem http_body_crlf_skip (p rest : List Byte) (hp : p ≠ []) (h : ∀ b ∈ p, b ≠ 13) :
    http_body (13 :: 10 :: (p ++ rest)) = http_body rest := by
  have hl : lit "\r\n\r\n" = [13, 10, 13, 10] := by decide
  cases p with
  | nil => exact absurd rfl hp
  | cons c p =>
    have hc : c ≠ 13 := h c (List.mem_cons_self c p)
    have hc2 : ¬ (13 : Nat) = c := fun x => hc x.symm
    have step : http_body (13 :: 10 :: (c :: p ++ rest)) = http_body (10 :: (c :: p ++ rest)) := by
      rw [http_body, hl]
      simp [List.isPrefixOf, hc2]
    rw [step, http_body_cons_ne 10 _ (by decide)]
    exact http_body_skip (c :: p) rest h

theorem http_body_blank (rest : List Byte) : http_body (13 :: 10 :: 13 :: 10 :: rest) = some rest := by
  have hl : lit "\r\n\r\n" = [13, 10, 13, 10] := by decide
  rw [http_body, hl]
  simp [List.isPrefixOf]

/-- The blank line that ends the head of the echo response is its last four
bytes: the body of `echo_head n ++ body` is `body`. -/
theorem http_body_echo (n : Nat) (body : List Byte) :
    http_body (echo_head n ++ body) = some body := by
  have hS : lit "HTTP/1.1 200 OK\r\n" = lit "HTTP/1.1 200 OK" ++ [13, 10] := by decide
  have hT : lit "Content-Type: text/plain\r\n" = lit "Content-Type: text/plain" ++ [13, 10] := by
    decide
  have hC : lit "\r\n" = [13, 10] := by decide
  have hS0 : ∀ b ∈ lit "HTTP/1.1 200 OK", b ≠ 13 := by decide
  have hT0 : ∀ b ∈ lit "Content-Type: text/plain", b ≠ 13 := by decide
  have hL0 : ∀ b ∈ lit "Content-Length: ", b ≠ 13 := by decide
  have hD0 : ∀ b ∈ fmt_zu n, b ≠ 13 := by
    intro b hb
    have hd := (fmt_zu_spec n).2.1 b hb
    simp only [is_digit, Bool.and_eq_true, decide_eq_true_eq] at hd
    unfold Byte at *
    omega
  have e : echo_head n ++ body
      = lit "HTTP/1.1 200 OK" ++ (13 :: 10 :: (lit "Content-Type: text/plain"
          ++ (13 :: 10 :: (lit "Content-Length: "
            ++ (fmt_zu n ++ (13 :: 10 :: 13 :: 10 :: body)))))) := by
    simp only [echo_head, hS, hT, hC, List.append_assoc, List.cons_append, List.nil_append]
  rw [e, http_body_skip _ _ hS0, http_body_crlf_skip _ _ (by decide) hT0,
    http_body_crlf_skip _ _ (by decide) hL0, http_body_skip _ _ hD0, http_body_blank]

/-- With a failing read (`readret < 0`) the per-connection code makes no
`send`. -/
theorem main_loop_body_recv_failed (parse : Parser) (g : Globals) (client_sock : Int) :
    (main_loop_body parse g client_sock none).2 = [] := by
  simp [main_loop_body, recv]

/-- With a read of at least one byte the per-connection code is the call of
`handle_http_request` on `buf` and the number of bytes read. -/
theorem main_loop_body_data (parse : Parser) (g : Globals) (client_sock : Int)
    (data : List Byte) (h : data ≠ []) :
    main_loop_body parse g client_sock (some data)
      = handle_http_request parse
          { g with buf := data.take BUF_SIZE
              ++ (memset g.buf 0 BUF_SIZE).drop (data.take BUF_SIZE).length }
          client_sock
          (data.take BUF_SIZE ++ (memset g.buf 0 BUF_SIZE).drop (data.take BUF_SIZE).length)
          (data.take BUF_SIZE).length := by
  have hpos : 0 < (data.take BUF_SIZE).length := by
    cases data with
    | nil => exact absurd rfl h
    | cons a t => simp [BUF_SIZE]
  have hint : ((data.take BUF_SIZE).length : Int) > 0 := by exact_mod_cast hpos
  simp only [main_loop_body, recv, if_pos hint, Int.toNat_ofNat]

/-- With a zero-byte read the per-connection code makes no `send`. -/
theorem main_loop_body_empty (parse : Parser) (g : Globals) (client_sock : Int) :
    (main_loop_body parse g client_sock (some [])).2 = [] := by
  simp [main_loop_body, recv]

/-! ## Claims about the fixed responses -/

/-- C3: whenever `parse` returns no Request, for every buffer and length,
`handle_http_request` makes one `send`, of exactly the bytes
`HTTP/1.1 400 Bad Request CRLF CRLF`: a status line, no header, and an empty
body after the blank line. -/
theorem C3_parse_failure_sends_400 (parse : Parser) (g : Globals) (client_sock : Int)
    (request_buf : List Byte) (request_len : Nat)
    (h : parse request_buf request_len client_sock = none) :
    (handle_http_request parse g client_sock request_buf request_len).2
        = [(client_sock, lit "HTTP/1.1 400 Bad Request\r\n\r\n")] ∧
      split_crlf (lit "HTTP/1.1 400 Bad Request\r\n\r\n")
        = some (lit "HTTP/1.1 400 Bad Request", lit "\r\n") ∧
      http_body (lit "HTTP/1.1 400 Bad Request\r\n\r\n") = some [] :=
  ⟨sent_of_parse_none parse g client_sock request_buf request_len h, by decide, by decide⟩

/-- C3 at a request line without a version token, which the parser of the
specification rejects. -/
theorem C3_parse_failure_sends_400_witness :
    parse_spec (lit "GET /\r\n\r\n") 9 4 = none ∧
      ((handle_http_request parse_spec initial_globals 4 (lit "GET /\r\n\r\n") 9).2
          = [(4, lit "HTTP/1.1 400 Bad Request\r\n\r\n")] ∧
        split_crlf (lit "HTTP/1.1 400 Bad Request\r\n\r\n")
          = some (lit "HTTP/1.1 400 Bad Request", lit "\r\n") ∧
        http_body (lit "HTTP/1.1 400 Bad Request\r\n\r\n") = some []) :=
  ⟨by decide,
    C3_parse_failure_sends_400 parse_spec initial_globals 4 (lit "GET /\r\n\r\n") 9 (by decide)⟩

/-- C4: for every successfully parsed request whose method is not exactly
(case-sensitively) `GET`, `POST` or `HEAD`, `handle_http_request` makes one
`send`, of exactly `HTTP/1.1 501 Not Implemented CRLF CRLF`, whose body is
empty, whatever the buffer contains. -/
theorem C4_other_method_sends_501 (parse : Parser) (g : Globals) (client_sock : Int)
    (request_buf : List Byte) (request_len : Nat) (request : Request)
    (h : parse request_buf request_len client_sock = some request)
    (hG : c_str request.http_method ≠ lit "GET")
    (hP : c_str request.http_method ≠ lit "POST")
    (hH : c_str request.http_method ≠ lit "HEAD") :
    (handle_http_request parse g client_sock request_buf request_len).2
        = [(client_sock, lit "HTTP/1.1 501 Not Implemented\r\n\r\n")] ∧
      http_body (lit "HTTP/1.1 501 Not Implemented\r\n\r\n") = some [] :=
  ⟨sent_of_other parse g client_sock request_buf request_len request h hG hP hH, by decide⟩

/-- C4 at a lowercase `get` request: the method is compared
case-sensitively, so the answer is 501. -/
theorem C4_other_method_sends_501_witness :
    parse_spec (lit "get / HTTP/1.1\r\n\r\n") 18 4
        = some { http_method := lit "get", uri := lit "/", version := lit "HTTP/1.1",
                 headers := [], raw_length := 18 } ∧
      ((handle_http_request parse_spec initial_globals 4 (lit "get / HTTP/1.1\r\n\r\n") 18).2
          = [(4, lit "HTTP/1.1 501 Not Implemented\r\n\r\n")] ∧
        http_body (lit "HTTP/1.1 501 Not Implemented\r\n\r\n") = some []) :=
  ⟨by decide,
    C4_other_method_sends_501 parse_spec initial_globals 4 (lit "get / HTTP/1.1\r\n\r\n") 18
      { http_method := lit "get", uri := lit "/", version := lit "HTTP/1.1",
        headers := [], raw_length := 18 }
      (by decide) (by decide) (by decide) (by decide)⟩

/-- C5: for every successfully parsed request whose method is exactly `HEAD`,
`handle_http_request` makes one `send`, of exactly the status line
`HTTP/1.1 200 OK`, `Content-Type: text/plain`, `Content-Length: 0` and the
blank line: the announced length is 0 and no body byte follows, whatever the
contents and size of the input buffer. -/
theorem C5_head_sends_headers_only (parse : Parser) (g : Globals) (client_sock : Int)
    (request_buf : List Byte) (request_len : Nat) (request : Request)
    (h : parse request_buf request_len client_sock = some request)
    (hm : c_str request.http_method = lit "HEAD") :
    (handle_http_request parse g client_sock request_buf request_len).2
        = [(client_sock,
            lit "HTTP/1.1 200 OK\r\nContent-Type: text/plain\r\nContent-Length: 0\r\n\r\n")] ∧
      content_length
          (lit "HTTP/1.1 200 OK\r\nContent-Type: text/plain\r\nContent-Length: 0\r\n\r\n")
        = some 0 ∧
      http_body
          (lit "HTTP/1.1 200 OK\r\nContent-Type: text/plain\r\nContent-Length: 0\r\n\r\n")
        = some [] :=
  ⟨sent_of_head parse g client_sock request_buf request_len request h hm, by decide, by decide⟩

/-- C5 at a `HEAD` request that carries a header and trailing bytes. -/
theorem C5_head_sends_headers_only_witness :
    parse_spec (lit "HEAD /x HTTP/1.1\r\nHost: a\r\n\r\nextra") 34 4
        = some { http_method := lit "HEAD", uri := lit "/x", version := lit "HTTP/1.1",
                 headers := [(lit "Host", lit "a")], raw_length := 29 } ∧
      ((handle_http_request parse_spec initial_globals 4
            (lit "HEAD /x HTTP/1.1\r\nHost: a\r\n\r\nextra") 34).2
          = [(4,
              lit "HTTP/1.1 200 OK\r\nContent-Type: text/plain\r\nContent-Length: 0\r\n\r\n")] ∧
        content_length
            (lit "HTTP/1.1 200 OK\r\nContent-Type: text/plain\r\nContent-Length: 0\r\n\r\n")
          = some 0 ∧
        http_body
            (lit "HTTP/1.1 200 OK\r\nContent-Type: text/plain\r\nContent-Length: 0\r\n\r\n")
          = some []) :=
  ⟨by decide,
    C5_head_sends_headers_only parse_spec initial_globals 4
      (lit "HEAD /x HTTP/1.1\r\nHost: a\r\n\r\nextra") 34
      { http_method := lit "HEAD", uri := lit "/x", version := lit "HTTP/1.1",
        headers := [(lit "Host", lit "a")], raw_length := 29 }
      (by decide) (by decide)⟩

/-! ## Claims about the echo response -/

/-- The bytes before the first NUL of a buffer are an initial segment of it. -/
theorem c_str_initial (mem : List Byte) : c_str mem <+: mem := by
  unfold c_str
  exact List.takeWhile_prefix _

/-- C6: for every successfully parsed GET or POST request of received length
at most the buffer capacity, the one response sent is, in this order, the
status line `HTTP/1.1 200 OK`, the header `Content-Type: text/plain`, a header
`Content-Length:` with a non-empty run of decimal digits (whose value is the
received length), the blank line, and then the body; all of the head is
present, and the body is what follows the first blank line. -/
theorem C6_echo_response_layout (parse : Parser) (g : Globals) (client_sock : Int)
    (request_buf : List Byte) (request_len : Nat) (request : Request)
    (h : parse request_buf request_len client_sock = some request)
    (hm : c_str request.http_method = lit "GET" ∨ c_str request.http_method = lit "POST")
    (hlen : request_len ≤ BUF_SIZE) :
    ∃ digits body : List Byte,
      (handle_http_request parse g client_sock request_buf request_len).2
          = [(client_sock,
              lit "HTTP/1.1 200 OK\r\n"
                ++ lit "Content-Type: text/plain\r\n"
                ++ (lit "Content-Length: " ++ digits ++ lit "\r\n")
                ++ lit "\r\n"
                ++ body)] ∧
        digits ≠ [] ∧ (∀ d ∈ digits, is_digit d = true) ∧ dec_value digits = request_len ∧
        http_body
            (lit "HTTP/1.1 200 OK\r\n"
              ++ lit "Content-Type: text/plain\r\n"
              ++ (lit "Content-Length: " ++ digits ++ lit "\r\n")
              ++ lit "\r\n"
              ++ body)
          = some body := by
  have hn : request_len < 2 ^ 64 := by
    have : request_len ≤ 4096 := hlen
    omega
  have hfit : (echo_head request_len).length ≤ BUF_SIZE - 1 := by
    have := echo_head_length_le request_len hn
    have hb : BUF_SIZE - 1 = 4095 := by decide
    omega
  obtain ⟨hne, hdig, hval, _⟩ := fmt_zu_spec request_len
  exact ⟨fmt_zu request_len,
    (c_str request_buf).take (BUF_SIZE - 1 - (echo_head request_len).length),
    sent_of_echo_split parse g client_sock request_buf request_len request h hm hfit,
    hne, hdig, hval, http_body_echo request_len _⟩

/-- C8: the bytes `handle_http_request` sends depend on the request buffer,
its length and the parse outcome only: two calls on the same request with the
same parse outcome send the same bytes, whatever the two prior contents of
the global buffers `buf` and `response`. -/
theorem C8_sent_independent_of_globals (parse1 parse2 : Parser) (g1 g2 : Globals)
    (client_sock : Int) (request_buf : List Byte) (request_len : Nat)
    (h : parse1 request_buf request_len client_sock
      = parse2 request_buf request_len client_sock) :
    (handle_http_request parse1 g1 client_sock request_buf request_len).2
      = (handle_http_request parse2 g2 client_sock request_buf request_len).2 := by
  rw [sent_eq_response_for, sent_eq_response_for, h]

/-- C9: for every parse outcome, request buffer and length,
`handle_http_request` makes exactly one `send`, and the response it sends is
at most `BUF_SIZE` (4096) bytes long. -/
theorem C9_response_within_BUF_SIZE (parse : Parser) (g : Globals) (client_sock : Int)
    (request_buf : List Byte) (request_len : Nat) :
    ∃ resp : List Byte,
      (handle_http_request parse g client_sock request_buf request_len).2
          = [(client_sock, resp)] ∧
        resp.length ≤ BUF_SIZE := by
  refine ⟨_, sent_eq_response_for parse g client_sock request_buf request_len, ?_⟩
  have h := response_for_length_le (parse request_buf request_len client_sock) request_len
    request_buf
  have hb : BUF_SIZE = 4096 := rfl
  omega

/-- C10: for every successfully parsed GET or POST request whose buffer
holds a NUL byte, so that the `%s` read ends inside the buffer (and whose
length is in the range of `size_t`), the body sent (the bytes after the blank
line of the response) is an initial segment of the bytes of the request
buffer before its first NUL, hence of the buffer itself, and it is all of
those bytes whenever the response head plus those bytes fit in
`BUF_SIZE - 1` (4095) bytes. -/
theorem C10_echo_body_before_first_nul (parse : Parser) (g : Globals) (client_sock : Int)
    (request_buf : List Byte) (request_len : Nat) (request : Request)
    (h : parse request_buf request_len client_sock = some request)
    (hm : c_str request.http_method = lit "GET" ∨ c_str request.http_method = lit "POST")
    (_hnul : 0 ∈ request_buf) (hlen : request_len < 2 ^ 64) :
    ∃ resp body : List Byte,
      (handle_http_request parse g client_sock request_buf request_len).2
          = [(client_sock, resp)] ∧
        http_body resp = some body ∧
        body <+: request_buf.takeWhile (fun b => b != 0) ∧
        body <+: request_buf ∧
        ((echo_head request_len).length + (request_buf.takeWhile (fun b => b != 0)).length
            ≤ BUF_SIZE - 1 →
          body = request_buf.takeWhile (fun b => b != 0)) := by
  have hfit : (echo_head request_len).length ≤ BUF_SIZE - 1 := by
    have := echo_head_length_le request_len hlen
    have hb : BUF_SIZE - 1 = 4095 := by decide
    omega
  have hpre : (c_str request_buf).take (BUF_SIZE - 1 - (echo_head request_len).length)
      <+: c_str request_buf := List.take_prefix _ _
  refine ⟨_, (c_str request_buf).take (BUF_SIZE - 1 - (echo_head request_len).length),
    sent_of_echo_split parse g client_sock request_buf request_len request h hm hfit,
    http_body_echo request_len _, hpre, hpre.trans (c_str_initial request_buf), ?_⟩
  intro hroom
  apply List.take_of_length_le
  change (c_str request_buf).length ≤ _
  have hroom2 : (echo_head request_len).length + (c_str request_buf).length ≤ BUF_SIZE - 1 :=
    hroom
  omega

/-- C6 at a GET request with one header. -/
theorem C6_echo_response_layout_witness :
    parse_spec (lit "GET /x HTTP/1.1\r\nHost: a\r\n\r\n") 28 4
        = some { http_method := lit "GET", uri := lit "/x", version := lit "HTTP/1.1",
                 headers := [(lit "Host", lit "a")], raw_length := 28 } ∧
      28 ≤ BUF_SIZE ∧
      ∃ digits body : List Byte,
        (handle_http_request parse_spec initial_globals 4
              (lit "GET /x HTTP/1.1\r\nHost: a\r\n\r\n") 28).2
            = [(4,
                lit "HTTP/1.1 200 OK\r\n"
                  ++ lit "Content-Type: text/plain\r\n"
                  ++ (lit "Content-Length: " ++ digits ++ lit "\r\n")
                  ++ lit "\r\n"
                  ++ body)] ∧
          digits ≠ [] ∧ (∀ d ∈ digits, is_digit d = true) ∧ dec_value digits = 28 ∧
          http_body
              (lit "HTTP/1.1 200 OK\r\n"
                ++ lit "Content-Type: text/plain\r\n"
                ++ (lit "Content-Length: " ++ digits ++ lit "\r\n")
                ++ lit "\r\n"
                ++ body)
            = some body :=
  ⟨by decide, by decide,
    C6_echo_response_layout parse_spec initial_globals 4
      (lit "GET /x HTTP/1.1\r\nHost: a\r\n\r\n") 28
      { http_method := lit "GET", uri := lit "/x", version := lit "HTTP/1.1",
        headers := [(lit "Host", lit "a")], raw_length := 28 }
      (by decide) (Or.inl (by decide)) (by decide)⟩

/-- C8 at a GET request handled once from the initial globals and once with
a stale earlier response left in `response`. -/
theorem C8_sent_independent_of_globals_witness :
    parse_spec (lit "GET /x HTTP/1.1\r\n\r\n") 19 4
        = parse_spec (lit "GET /x HTTP/1.1\r\n\r\n") 19 4 ∧
      (handle_http_request parse_spec initial_globals 4 (lit "GET /x HTTP/1.1\r\n\r\n") 19).2
        = (handle_http_request parse_spec
            { buf := lit "stale request", response := lit "HTTP/1.1 501 Not Implemented\r\n\r\n" }
            4 (lit "GET /x HTTP/1.1\r\n\r\n") 19).2 :=
  ⟨rfl,
    C8_sent_independent_of_globals parse_spec parse_spec initial_globals
      { buf := lit "stale request", response := lit "HTTP/1.1 501 Not Implemented\r\n\r\n" }
      4 (lit "GET /x HTTP/1.1\r\n\r\n") 19 rfl⟩

/-- C10 at a POST request whose payload holds a NUL: the body stops there. -/
theorem C10_echo_body_before_first_nul_witness :
    parse_spec (lit "POST /p HTTP/1.1\r\n\r\nab" ++ 0 :: lit "cd" ++ [0, 0]) 25 4
        = some { http_method := lit "POST", uri := lit "/p", version := lit "HTTP/1.1",
                 headers := [], raw_length := 20 } ∧
      0 ∈ lit "POST /p HTTP/1.1\r\n\r\nab" ++ 0 :: lit "cd" ++ [0, 0] ∧
      25 < 2 ^ 64 ∧
      ∃ resp body : List Byte,
        (handle_http_request parse_spec initial_globals 4
              (lit "POST /p HTTP/1.1\r\n\r\nab" ++ 0 :: lit "cd" ++ [0, 0]) 25).2
            = [(4, resp)] ∧
          http_body resp = some body ∧
          body <+: (lit "POST /p HTTP/1.1\r\n\r\nab" ++ 0 :: lit "cd" ++ [0, 0]).takeWhile
            (fun b => b != 0) ∧
          body <+: lit "POST /p HTTP/1.1\r\n\r\nab" ++ 0 :: lit "cd" ++ [0, 0] ∧
          ((echo_head 25).length
              + ((lit "POST /p HTTP/1.1\r\n\r\nab" ++ 0 :: lit "cd" ++ [0, 0]).takeWhile
                  (fun b => b != 0)).length
              ≤ BUF_SIZE - 1 →
            body = (lit "POST /p HTTP/1.1\r\n\r\nab" ++ 0 :: lit "cd" ++ [0, 0]).takeWhile
              (fun b => b != 0)) :=
  ⟨by decide, by decide, by decide,
    C10_echo_body_before_first_nul parse_spec initial_globals 4
      (lit "POST /p HTTP/1.1\r\n\r\nab" ++ 0 :: lit "cd" ++ [0, 0]) 25
      { http_method := lit "POST", uri := lit "/p", version := lit "HTTP/1.1",
        headers := [], raw_length := 20 }
      (by decide) (Or.inr (by decide)) (by decide) (by decide)⟩

/-! ## Where the echo departs from the request -/

/-- C1, failing input: the peer sends the 24 bytes
`POST / HTTP/1.1 CRLF CRLF a b NUL c d`.  The request parses as a POST and
the handler announces 24 bytes, but the body it sends is the 21 bytes before
the NUL, not the 24 bytes received. -/
theorem C1_echo_body_stops_at_nul :
    parse_spec
        (recv (memset initial_globals.buf 0 BUF_SIZE) BUF_SIZE
          (some (lit "POST / HTTP/1.1\r\n\r\nab" ++ 0 :: lit "cd"))).2 24 4
        = some { http_method := lit "POST", uri := lit "/", version := lit "HTTP/1.1",
                 headers := [], raw_length := 19 } ∧
      (main_loop_body parse_spec initial_globals 4
          (some (lit "POST / HTTP/1.1\r\n\r\nab" ++ 0 :: lit "cd"))).2
        = [(4, lit "HTTP/1.1 200 OK\r\nContent-Type: text/plain\r\nContent-Length: 24\r\n\r\nPOST / HTTP/1.1\r\n\r\nab")] ∧
      http_body
          (lit "HTTP/1.1 200 OK\r\nContent-Type: text/plain\r\nContent-Length: 24\r\n\r\nPOST / HTTP/1.1\r\n\r\nab")
        = some (lit "POST / HTTP/1.1\r\n\r\nab") ∧
      lit "POST / HTTP/1.1\r\n\r\nab"
        ≠ (lit "POST / HTTP/1.1\r\n\r\nab" ++ 0 :: lit "cd").take 24 := by
  refine ⟨by decide, by decide, by decide, by decide⟩

/-- C2, failing input: the peer sends 4095 bytes, `GET / HTTP/1.1 CRLF CRLF`
followed by 4077 letters `a`, with no NUL among them.  The request parses as
a GET and the response announces `Content-Length: 4095`, but `snprintf` keeps
4095 bytes in all, so only 4028 body bytes follow the blank line. -/
theorem C2_content_length_exceeds_body :
    parse_spec
        (recv (memset initial_globals.buf 0 BUF_SIZE) BUF_SIZE
          (some (lit "GET / HTTP/1.1\r\n\r\n" ++ List.replicate 4077 97))).2 4095 4
        = some { http_method := lit "GET", uri := lit "/", version := lit "HTTP/1.1",
                 headers := [], raw_length := 18 } ∧
      (main_loop_body parse_spec initial_globals 4
          (some (lit "GET / HTTP/1.1\r\n\r\n" ++ List.replicate 4077 97))).2
        = [(4, lit "HTTP/1.1 200 OK\r\nContent-Type: text/plain\r\nContent-Length: 4095\r\n\r\nGET / HTTP/1.1\r\n\r\n"
                ++ List.replicate 4010 97)] ∧
      content_length
          (lit "HTTP/1.1 200 OK\r\nContent-Type: text/plain\r\nContent-Length: 4095\r\n\r\nGET / HTTP/1.1\r\n\r\n"
            ++ List.replicate 4010 97)
        = some 4095 ∧
      (http_body
          (lit "HTTP/1.1 200 OK\r\nContent-Type: text/plain\r\nContent-Length: 4095\r\n\r\nGET / HTTP/1.1\r\n\r\n"
            ++ List.replicate 4010 97)).map List.length
        = some 4028 := by
  refine ⟨by decide!, by decide!, by decide!, by decide!⟩

/-! ## The zero-byte read -/

/-- C7, counterexample: on the empty input the parser of the specification
fails with `EmptyInput`, yet the per-connection code sends nothing: no
`400 Bad Request` goes out on the connection. -/
theorem C7_empty_read_sends_no_400 :
    parse_request [] 0 = .error .EmptyInput ∧
      (main_loop_body parse_spec initial_globals 4 (some [])).2 = [] ∧
      ¬ ∃ s ∈ (main_loop_body parse_spec initial_globals 4 (some [])).2,
          s = (4, lit "HTTP/1.1 400 Bad Request\r\n\r\n") := by
  refine ⟨rfl, main_loop_body_empty parse_spec initial_globals 4, ?_⟩
  rw [main_loop_body_empty]
  simp

/-- C7, amended: when the single read of a connection delivers zero bytes,
the per-connection code sends nothing on that connection, for every parser
and every prior content of the globals. -/
theorem C7_empty_read_sends_nothing (parse : Parser) (g : Globals) (client_sock : Int) :
    (main_loop_body parse g client_sock (some [])).2 = [] :=
  main_loop_body_empty parse g client_sock

end EchoServer
